import Mathlib

/-!
Verification of the AliveCor ECG PDF structural scanner
(`pdf2bsml/AliveCor/ecg2bsml.py`, class `ECG_PDF`, method `_scan`).

The scanner is a single forward pass over a whitespace-tokenized PDF
content stream.  Numeric tokens accumulate in a pending operand buffer;
operator tokens dispatch on the current classifier role (`linestate`)
and mutate the scan state.  We embed the scan shallowly: real numbers
become `ℚ`, the mutable locals of `_scan` become the fields of
`ScanState`, and every Python run-time failure (assertion failure,
list index error, arithmetic on `None`) becomes an explicit
`ScanError` so that the scan is a total function
`List Token → Except ScanError ScanState`.
-/

namespace Ecg2Bsml

/-- `POINTS2MM = 25.4/72.0`, the physical-length-per-point constant. -/
def POINTS2MM : ℚ := 25.4 / 72.0

/-- Nominal chart time scale, mm/s (`T_scale = 25.0` in `_scan`). -/
def T_scale : ℚ := 25.0

/-- Nominal chart amplitude scale, mm/mV (`V_scale = 10.0` in `_scan`). -/
def V_scale : ℚ := 10.0

/-- The axis-aligned affine transform `GraphicsMap`, storing
`_matrix = [Sx, Sy, Tx, Ty]`. -/
structure GraphicsMap where
  Sx : ℚ
  Sy : ℚ
  Tx : ℚ
  Ty : ℚ
deriving DecidableEq

/-- `GraphicsMap()` with the default arguments `Sx=1, Sy=1, Tx=0, Ty=0`. -/
def GraphicsMap.dflt : GraphicsMap := ⟨1, 1, 0, 0⟩

/-- `GraphicsMap.map`: maps a raw point to transform space,
`(Sx*x + Tx, Sy*y + Ty)`. -/
def GraphicsMap.map (g : GraphicsMap) (px py : ℚ) : ℚ × ℚ :=
  (g.Sx * px + g.Tx, g.Sy * py + g.Ty)

/-- The run-time failures `_scan` can raise.  `stackUnderflow` is the
`IndexError` of `graphicstate.pop()` on an empty list (the spec's
StructuralError for an unmatched restore); `malformedOperands` is an
`AssertionError` from a wrong operand count; `unsupportedTransform` is
the `AssertionError` from `params[1:3] == [0, 0]` failing on `cm` (the
spec's UnsupportedTransformError); `indexError` is an out-of-range
`origins_trace[subtrace]`; `noneArithmetic` is a `TypeError` from
arithmetic involving an unset (`None`) value. -/
inductive ScanError
  | stackUnderflow
  | malformedOperands
  | unsupportedTransform
  | indexError
  | noneArithmetic
deriving DecidableEq

/-- A content-stream token: a numeric operand or an operator keyword
(the tokenizer tries `int(d)`, then `float(d)`, else keeps the string). -/
inductive Token
  | num (v : ℚ)
  | op (d : String)
deriving DecidableEq

/-- The mutable locals of `_scan`.  The graphics-state stack is held
with its top as the list head (Python pushes with `append` and pops
with `pop()` at the same end, so only push/pop order is observable). -/
structure ScanState where
  stage : ℤ
  level : ℤ
  intext : Bool
  params : List ℚ
  transform : GraphicsMap
  graphicstate : List GraphicsMap
  linestate : ℤ
  X_min : Option ℚ
  X_max : Option ℚ
  T_width : Option ℚ
  t_start : Option ℚ
  subtrace : ℤ
  origins_trace : List ℚ
  origins_beats : List ℚ
  times : List ℚ
  trace : List ℚ
  beats : List ℚ
deriving DecidableEq

/-- The initial values of `_scan`'s locals. -/
def initState : ScanState :=
  { stage := 0
    level := 0
    intext := false
    params := []
    transform := GraphicsMap.dflt
    graphicstate := []
    linestate := 0
    X_min := none
    X_max := none
    T_width := none
    t_start := none
    subtrace := -1
    origins_trace := []
    origins_beats := []
    times := []
    trace := []
    beats := [] }

/-- Python list indexing `l[i]` for a possibly negative `i`:
`l[i]` for `0 ≤ i < len` is element `i`; for `-len ≤ i < 0` it is
element `len + i`; anything else raises `IndexError` (`none`). -/
def pyIndex (l : List ℚ) (i : ℤ) : Option ℚ :=
  if 0 ≤ i then l[i.toNat]?
  else if 0 ≤ (l.length : ℤ) + i then l[((l.length : ℤ) + i).toNat]?
  else none

/-- The `if/elif` operator chain of `_scan`'s loop body: dispatch on
the operator keyword `d`, mutating the state; every recognized or
unrecognized operator ends with `params` cleared (`params = [ ]` at the
bottom of the loop). -/
def applyOp (s : ScanState) (d : String) : Except ScanError ScanState :=
  if d = "q" then
      .ok { s with graphicstate := s.transform :: s.graphicstate
                   transform := GraphicsMap.dflt
                   stage := if s.level = 0 then s.stage + 1 else s.stage
                   level := s.level + 1
                   params := [] }
    else if d = "Q" then
      match s.graphicstate with
      | [] => .error .stackUnderflow
      | g :: rest =>
        .ok { s with transform := g
                     graphicstate := rest
                     linestate := if s.linestate = 0 then s.linestate else s.linestate + 1
                     level := s.level - 1
                     params := [] }
    else if d = "BT" then
      .ok { s with intext := true, params := [] }
    else if d = "ET" then
      .ok { s with intext := false, params := [] }
    else if d = "cm" then
      match s.params with
      | [a, b, c, d4, d5, d6] =>
        if b = 0 ∧ c = 0 then
          .ok { s with transform := ⟨a, d4, d5, d6⟩, params := [] }
        else .error .unsupportedTransform
      | _ => .error .malformedOperands
    else if d = "w" then
      match s.params with
      | [w] =>
        if s.stage = 2 then
          if w = 0.4 then .ok { s with linestate := 1, params := [] }
          else if w = 0.3 then .ok { s with linestate := 11, params := [] }
          else .ok { s with params := [] }
        else if s.stage = 3 then
          if w = 1.5 then .ok { s with linestate := 21, params := [] }
          else if w = 0.4 then
            .ok { s with subtrace := s.subtrace + 1, linestate := 22, params := [] }
          else if w = 0.6 then .ok { s with linestate := 23, params := [] }
          else .ok { s with params := [] }
        else .ok { s with params := [] }
      | _ => .error .malformedOperands
    else if d = "m" then
      match s.params with
      | [px, py] =>
        let x := (s.transform.map px py).1
        let y := (s.transform.map px py).2
        if s.linestate = 1 then
          .ok { s with X_min := some x, params := [] }
        else if s.linestate = 2 then
          .ok { s with origins_beats := s.origins_beats ++ [y], params := [] }
        else if s.linestate = 12 then
          .ok { s with origins_trace := s.origins_trace ++ [y], params := [] }
        else if s.linestate = 22 then
          match s.t_start with
          | none =>
            match pyIndex s.origins_trace s.subtrace with
            | none => .error .indexError
            | some o =>
              .ok { s with t_start := some x
                           times := s.times ++ [0]
                           trace := s.trace ++ [y - o]
                           params := [] }
          | some c =>
            match s.T_width with
            | none => .error .noneArithmetic
            | some tw =>
              match pyIndex s.origins_trace s.subtrace with
              | none => .error .indexError
              | some o =>
                .ok { s with t_start := some (c - tw)
                             times := s.times ++ [x - (c - tw)]
                             trace := s.trace ++ [y - o]
                             params := [] }
        else if 23 ≤ s.linestate then
          match s.t_start with
          | none => .error .noneArithmetic
          | some c => .ok { s with beats := s.beats ++ [x - c], params := [] }
        else .ok { s with params := [] }
      | _ => .error .malformedOperands
    else if d = "l" then
      match s.params with
      | [px, py] =>
        let x := (s.transform.map px py).1
        let y := (s.transform.map px py).2
        if s.linestate = 1 then
          match s.T_width with
          | some _ => .ok { s with params := [] }
          | none =>
            match s.X_min with
            | none => .error .noneArithmetic
            | some xm =>
              .ok { s with X_max := some x, T_width := some (x - xm), params := [] }
        else if s.linestate = 22 then
          match s.t_start with
          | none => .error .noneArithmetic
          | some c =>
            match pyIndex s.origins_trace s.subtrace with
            | none => .error .indexError
            | some o =>
              .ok { s with times := s.times ++ [x - c]
                           trace := s.trace ++ [y - o]
                           params := [] }
        else .ok { s with params := [] }
      | _ => .error .malformedOperands
  else
    .ok { s with params := [] }

/-- One iteration of `_scan`'s token loop.  A numeric token is appended
to `params` (the loop `continue`s, so `params` is not cleared); an
operator token dispatches through `applyOp`, the `if/elif` chain of
`_scan`'s loop body, which clears `params` afterwards. -/
def step (s : ScanState) (t : Token) : Except ScanError ScanState :=
  match t with
  | .num v => .ok { s with params := s.params ++ [v] }
  | .op d => applyOp s d

/-- The whole token loop of `_scan`, from the initial locals. -/
def scanTokens (ts : List Token) : Except ScanError ScanState :=
  ts.foldlM step initState

/-- The output finalizer at the end of `_scan`: `np.array(times)` and
`np.array(trace)` rescaled in place by `POINTS2MM/T_scale` and
`POINTS2MM/V_scale` (elementwise `__imul__`), and `np.array(beats)`
rescaled by `POINTS2MM/T_scale`.  Result: `((times, trace), beats)`. -/
def finalize (s : ScanState) : (List ℚ × List ℚ) × List ℚ :=
  ((s.times.map (fun t => t * (POINTS2MM / T_scale)),
    s.trace.map (fun v => v * (POINTS2MM / V_scale))),
   s.beats.map (fun t => t * (POINTS2MM / T_scale)))

/-- The scan including finalization: the `(self.ecg, self.beats)`
outputs, or the error that aborted the scan. -/
def ecgScan (ts : List Token) : Except ScanError ((List ℚ × List ℚ) × List ℚ) :=
  (scanTokens ts).map finalize

/-- The structural classifier's `(stage, width) ↦ role` table, as the
spec presents it (border 1, vertical-grid 11, calibration 21, trace 22,
beat-marker 23).  Stated separately from `step` so that theorems can
quantify over the recognized combinations. -/
def roleTable (stage : ℤ) (w : ℚ) : Option ℤ :=
  if stage = 2 then
    if w = 0.4 then some 1 else if w = 0.3 then some 11 else none
  else if stage = 3 then
    if w = 1.5 then some 21 else if w = 0.4 then some 22
    else if w = 0.6 then some 23 else none
  else none

/-- The token stream of the end-to-end scenario exactly as the spec
writes it: `q q 0.4 w 1 0 0 -1 0 0 cm 0 0 m 100 0 l S Q Q`. -/
def c2stream : List Token :=
  [Token.op "q", Token.op "q", Token.num 0.4, Token.op "w",
   Token.num 1, Token.num 0, Token.num 0, Token.num (-1), Token.num 0,
   Token.num 0, Token.op "cm",
   Token.num 0, Token.num 0, Token.op "m",
   Token.num 100, Token.num 0, Token.op "l",
   Token.op "S", Token.op "Q", Token.op "Q"]

/-- The spec's end-to-end stream preceded by the document's first
top-level save/restore block (`q Q`), so that the outer save of the
border block is the second top-level save and `stage` reaches 2. -/
def c2streamAmended : List Token :=
  Token.op "q" :: Token.op "Q" :: c2stream

/-- Time-continuity scenario, up to and including the first trace-role
move: a stage-1 block, then in stage 2 a border from x=10 to x=110
(so `T_width = 100`), a trace-grid block recording origins 50 and 80,
then in stage 3 the first subtrace's `0.4 w` and a move at x=10. -/
def c1pre : List Token :=
  [Token.op "q", Token.op "Q", Token.op "q", Token.num 0.4, Token.op "w",
   Token.op "q", Token.num 10, Token.num 0, Token.op "m",
   Token.num 110, Token.num 0, Token.op "l", Token.op "S", Token.op "Q",
   Token.num 0.3, Token.op "w", Token.op "q", Token.op "Q",
   Token.num 0, Token.num 50, Token.op "m",
   Token.num 0, Token.num 80, Token.op "m",
   Token.op "Q", Token.op "q", Token.num 0.4, Token.op "w",
   Token.num 10, Token.num 55, Token.op "m"]

/-- The time-continuity scenario continued: a line at x=60 inside the
first subtrace, then a second `0.4 w` (new subtrace) and a move at the
same transform-space x=10. -/
def c1full : List Token :=
  c1pre ++ [Token.num 60, Token.num 57, Token.op "l",
            Token.num 0.4, Token.op "w",
            Token.num 10, Token.num 82, Token.op "m"]

/-- A complete scan in which a trace-role move is processed while no
origin was ever recorded for the current subtrace (`subtrace = -1`):
stage 2 records one trace-grid origin, then in stage 3 the calibration
width `1.5 w` is followed by a save/restore pair whose restore advances
the role from 21 to 22, and a move is processed with `subtrace` still
`-1`. -/
def c5stream : List Token :=
  [Token.op "q", Token.op "Q", Token.op "q", Token.num 0.3, Token.op "w",
   Token.op "q", Token.op "Q", Token.num 7, Token.num 50, Token.op "m",
   Token.op "Q", Token.op "q", Token.num 1.5, Token.op "w",
   Token.op "q", Token.op "Q", Token.num 3, Token.num 4, Token.op "m"]

deriving instance DecidableEq for Except

/-- Binding a successful `Except` value applies the continuation. -/
theorem ok_bind {α β ε : Type} (a : α) (f : α → Except ε β) :
    (Except.ok a >>= f) = f a := rfl

/-- Binding a failed `Except` value propagates the error. -/
theorem error_bind {α β ε : Type} (e : ε) (f : α → Except ε β) :
    ((Except.error e : Except ε α) >>= f) = .error e := rfl

/-- Mapping over a successful `Except` value applies the function. -/
theorem map_ok {α β ε : Type} (a : α) (f : α → β) :
    (Except.ok a : Except ε α).map f = .ok (f a) := rfl

/-- Mapping over a failed `Except` value propagates the error. -/
theorem map_error {α β ε : Type} (e : ε) (f : α → β) :
    (Except.error e : Except ε α).map f = .error e := rfl

/-- Folding `step` over an appended token list runs the first part and,
when it succeeds, continues with the second from the reached state. -/
theorem foldlM_step_append (ts1 ts2 : List Token) (s : ScanState) :
    List.foldlM step s (ts1 ++ ts2)
      = (List.foldlM step s ts1) >>= (fun s2 => List.foldlM step s2 ts2) := by
  induction ts1 generalizing s with
  | nil => rfl
  | cons t ts ih =>
    simp only [List.cons_append, List.foldlM_cons]
    cases h : step s t with
    | ok s2 => exact ih s2
    | error e => rfl

/-- C1: for a scan in which `timeWidth` is already 100 and the role is
trace (22), the first trace-role move at transform-space x=10 sets the
time cursor to 10 and appends `0.0` to `times`; a later trace-role move
beginning a new subtrace at transform-space x=10 decrements the cursor
by `timeWidth` to -90 and appends `10 - (-90) = 100`, a value strictly
greater than both times recorded for the first subtrace. -/
theorem c1_time_continuity_across_subtraces :
    (scanTokens c1pre).map (fun s => (s.T_width, s.linestate, s.t_start, s.times))
      = .ok (some 100, 22, some 10, [0])
  ∧ (scanTokens c1full).map (fun s => (s.t_start, s.times))
      = .ok (some (-90), [0, 50, 100])
  ∧ ([0, 50] : List ℚ).all (fun u => decide (u < 100)) = true := by
  refine ⟨?_, ?_, ?_⟩ <;> with_unfolding_all rfl

/-- C2 (counterexample): scanning the spec's exact stream
`q q 0.4 w 1 0 0 -1 0 0 cm 0 0 m 100 0 l S Q Q` from the initial state
leaves `stage = 1` (the second save is nested, so `stage` never reaches
2), the width declaration therefore assigns no role, and `borderXMin`,
`borderXMax` and `timeWidth` all stay unset — not `0`, `100`, `100` as
claimed. -/
theorem c2_counterexample :
    (scanTokens c2stream).map
        (fun s => (s.stage, s.linestate, s.X_min, s.X_max, s.T_width))
      = .ok (1, 0, none, none, none)
  ∧ (scanTokens c2stream).map (fun s => s.T_width) ≠ .ok (some 100) := by
  constructor
  · with_unfolding_all rfl
  · intro h
    have : (none : Option ℚ) = some 100 := by
      have h0 : (scanTokens c2stream).map (fun s => s.T_width) = .ok none := by
        with_unfolding_all rfl
      rw [h0] at h
      exact Except.ok.inj h
    exact Option.noConfusion this

/-- C2 (amended): the same block preceded by the document's first
top-level save/restore pair (`q Q`), so the border block's outer save
is the second top-level save: `stage` reaches 2 on it, `0.4 w` assigns
the border role (1), the move records `borderXMin = 0`, the line
records `borderXMax = 100` and `timeWidth = 100`. -/
theorem c2_end_to_end_amended :
    (List.foldlM step initState (c2streamAmended.take 6)).map
        (fun s => (s.stage, s.linestate)) = .ok (2, 1)
  ∧ (scanTokens c2streamAmended).map
        (fun s => (s.stage, s.X_min, s.X_max, s.T_width))
      = .ok (2, some 0, some 100, some 100) := by
  constructor <;> with_unfolding_all rfl

/-- C5 (counterexample): a complete scan in which the final move is
processed under the trace role with `subtrace = -1` — an index at which
no per-subtrace origin was ever recorded (`origins_trace` holds the
single entry recorded during the trace-grid phase, at index 0).  The
scan does not fail: Python's negative indexing silently reads
`origins_trace[-1] = 50` and the scan succeeds, appending the sample
`4 - 50 = -46` to the trace output. -/
theorem c5_counterexample :
    (scanTokens c5stream).map
        (fun s => (s.subtrace, s.origins_trace, s.linestate, s.times, s.trace))
      = .ok (-1, [50], 22, [0], [-46]) := by
  with_unfolding_all rfl

/-- `step` on a save: push the transform, reset it, bump `stage` at
depth 0, bump the depth, clear the operand buffer. -/
theorem step_q (s : ScanState) :
    step s (Token.op "q") = .ok { s with
      graphicstate := s.transform :: s.graphicstate
      transform := GraphicsMap.dflt
      stage := if s.level = 0 then s.stage + 1 else s.stage
      level := s.level + 1
      params := [] } := by
  with_unfolding_all rfl

/-- `step` on a restore with an empty graphics-state stack fails. -/
theorem step_Q_nil (s : ScanState) (hg : s.graphicstate = []) :
    step s (Token.op "Q") = .error ScanError.stackUnderflow := by
  cases s
  subst hg
  with_unfolding_all rfl

/-- `step` on a restore with a non-empty stack: pop the transform,
advance a nonzero role by 1, decrement the depth. -/
theorem step_Q_cons (s : ScanState) (g : GraphicsMap) (rest : List GraphicsMap)
    (hg : s.graphicstate = g :: rest) :
    step s (Token.op "Q") = .ok { s with
      transform := g
      graphicstate := rest
      linestate := if s.linestate = 0 then s.linestate else s.linestate + 1
      level := s.level - 1
      params := [] } := by
  cases s
  subst hg
  with_unfolding_all rfl

/-- A restore that succeeds advances a nonzero role by exactly 1 and
leaves role 0 unchanged. -/
theorem step_Q_linestate (s s' : ScanState) (h : step s (Token.op "Q") = .ok s') :
    s'.linestate = if s.linestate = 0 then 0 else s.linestate + 1 := by
  cases hg : s.graphicstate with
  | nil => rw [step_Q_nil s hg] at h; exact absurd h (by simp)
  | cons g rest =>
    rw [step_Q_cons s g rest hg] at h
    cases Except.ok.inj h
    by_cases h0 : s.linestate = 0 <;> simp [h0]

/-- `step` on a width declaration: the new role is the classifier
table's entry for `(stage, w)` when one exists, the old role otherwise;
a stage-3 trace width additionally advances `subtrace`. -/
theorem step_w (s : ScanState) (w : ℚ) (hp : s.params = [w]) :
    step s (Token.op "w") = .ok { s with
      linestate := (roleTable s.stage w).getD s.linestate
      subtrace := if s.stage = 3 ∧ w = 0.4 then s.subtrace + 1 else s.subtrace
      params := [] } := by
  cases s
  simp only at hp
  subst hp
  simp only [step, applyOp, roleTable, String.reduceEq, reduceIte]
  split_ifs <;> first | rfl | (simp_all; done) | omega | (simp_all; norm_num at *)

/-- Invariants preserved by every successful `step` are preserved by
any successful fold of `step`. -/
theorem foldlM_step_invariant (P : ScanState → Prop)
    (hstep : ∀ s t s', step s t = .ok s' → P s → P s')
    (ts : List Token) :
    ∀ s s', List.foldlM step s ts = .ok s' → P s → P s' := by
  induction ts with
  | nil =>
    intro s s' h hs
    cases Except.ok.inj h
    exact hs
  | cons t ts ih =>
    intro s s' h hs
    rw [List.foldlM_cons] at h
    cases hst : step s t with
    | error e => rw [hst, error_bind] at h; exact absurd h (by simp)
    | ok s2 => rw [hst, ok_bind] at h; exact ih s2 s' h (hstep s t s2 hst hs)

/-- If a prefix of the stream reaches state `s` and the next token
fails, the whole scan fails with that error and yields no output. -/
theorem scan_aborts (ts1 ts2 : List Token) (t : Token) (s : ScanState) (e : ScanError)
    (h : List.foldlM step initState ts1 = .ok s) (hst : step s t = .error e) :
    ecgScan (ts1 ++ t :: ts2) = .error e := by
  unfold ecgScan scanTokens
  rw [foldlM_step_append, h, ok_bind, List.foldlM_cons, hst, error_bind, map_error]

/-- `step` on a concatenate-matrix operator whose 2nd or 3rd operand is
nonzero fails with the unsupported-transform error. -/
theorem step_cm_error (s : ScanState) (a b c d4 d5 d6 : ℚ)
    (hp : s.params = [a, b, c, d4, d5, d6]) (hbc : b ≠ 0 ∨ c ≠ 0) :
    step s (Token.op "cm") = .error ScanError.unsupportedTransform := by
  cases s
  simp only at hp
  subst hp
  simp only [step, applyOp, String.reduceEq, reduceIte]
  rw [if_neg (fun hc => hbc.elim (fun h => h hc.1) (fun h => h hc.2))]

/-- `step` on a concatenate-matrix operator with zero off-diagonal
operands installs the transform `(Sx, Sy, Tx, Ty) = (a, d4, d5, d6)`. -/
theorem step_cm_ok (s : ScanState) (a b c d4 d5 d6 : ℚ)
    (hp : s.params = [a, b, c, d4, d5, d6]) (hb : b = 0) (hc : c = 0) :
    step s (Token.op "cm")
      = .ok { s with transform := ⟨a, d4, d5, d6⟩, params := [] } := by
  cases s
  simp only at hp
  subst hp
  simp only [step, applyOp, String.reduceEq, reduceIte]
  rw [if_pos ⟨hb, hc⟩]

/-- `step` on a move under a beat-marker role (≥ 23) with the time
cursor set appends exactly the timestamp `x - cursor` to `beats`. -/
theorem step_m_beat (s : ScanState) (px py c : ℚ) (hp : s.params = [px, py])
    (hls : 23 ≤ s.linestate) (ht : s.t_start = some c) :
    step s (Token.op "m") = .ok { s with
      beats := s.beats ++ [(s.transform.map px py).1 - c]
      params := [] } := by
  cases s
  simp only at hp ht hls
  subst hp ht
  simp only [step, applyOp, String.reduceEq, reduceIte]
  rw [if_neg (by omega), if_neg (by omega), if_neg (by omega),
    if_neg (by omega), if_pos (by omega)]

/-- `step` on a move under a beat-marker role (≥ 23) with the time
cursor unset fails: the beat time `x - cursor` is undefined. -/
theorem step_m_beat_nocursor (s : ScanState) (px py : ℚ) (hp : s.params = [px, py])
    (hls : 23 ≤ s.linestate) (ht : s.t_start = none) :
    step s (Token.op "m") = .error ScanError.noneArithmetic := by
  cases s
  simp only at hp ht hls
  subst hp ht
  simp only [step, applyOp, String.reduceEq, reduceIte]
  rw [if_neg (by omega), if_neg (by omega), if_neg (by omega),
    if_neg (by omega), if_pos (by omega)]

/-- Every successful `step` leaves the parallel-array and time-cursor
invariants intact: `times` and `trace` keep equal lengths (trace-role
moves and lines append one sample to each; nothing else touches them),
and a set time cursor is never unset. -/
theorem step_preserves (s : ScanState) (t : Token) (s' : ScanState)
    (h : step s t = .ok s') :
    (s.times.length = s.trace.length → s'.times.length = s'.trace.length)
    ∧ (s.t_start ≠ none → s'.t_start ≠ none) := by
  cases t with
  | num v =>
    cases Except.ok.inj h
    refine ⟨fun hh => ?_, fun hh => ?_⟩ <;> simp_all
  | op d =>
    simp only [step] at h
    unfold applyOp at h
    by_cases h1 : d = "q"
    · rw [if_pos h1] at h
      cases Except.ok.inj h
      refine ⟨fun hh => ?_, fun hh => ?_⟩ <;> simp_all
    rw [if_neg h1] at h
    by_cases h2 : d = "Q"
    · rw [if_pos h2] at h
      repeat' split at h
      all_goals first
        | exact Except.noConfusion h
        | (cases Except.ok.inj h
           refine ⟨fun hh => ?_, fun hh => ?_⟩ <;> simp_all)
    rw [if_neg h2] at h
    by_cases h3 : d = "BT"
    · rw [if_pos h3] at h
      cases Except.ok.inj h
      refine ⟨fun hh => ?_, fun hh => ?_⟩ <;> simp_all
    rw [if_neg h3] at h
    by_cases h4 : d = "ET"
    · rw [if_pos h4] at h
      cases Except.ok.inj h
      refine ⟨fun hh => ?_, fun hh => ?_⟩ <;> simp_all
    rw [if_neg h4] at h
    by_cases h5 : d = "cm"
    · rw [if_pos h5] at h
      repeat' split at h
      all_goals first
        | exact Except.noConfusion h
        | (cases Except.ok.inj h
           refine ⟨fun hh => ?_, fun hh => ?_⟩ <;> simp_all)
    rw [if_neg h5] at h
    by_cases h6 : d = "w"
    · rw [if_pos h6] at h
      repeat' split at h
      all_goals first
        | exact Except.noConfusion h
        | (cases Except.ok.inj h
           refine ⟨fun hh => ?_, fun hh => ?_⟩ <;> simp_all)
    rw [if_neg h6] at h
    by_cases h7 : d = "m"
    · rw [if_pos h7] at h
      repeat' split at h
      all_goals first
        | exact Except.noConfusion h
        | (cases Except.ok.inj h
           refine ⟨fun hh => ?_, fun hh => ?_⟩ <;> simp_all)
    rw [if_neg h7] at h
    by_cases h8 : d = "l"
    · rw [if_pos h8] at h
      repeat' split at h
      all_goals first
        | exact Except.noConfusion h
        | (cases Except.ok.inj h
           refine ⟨fun hh => ?_, fun hh => ?_⟩ <;> simp_all)
    rw [if_neg h8] at h
    cases Except.ok.inj h
    refine ⟨fun hh => ?_, fun hh => ?_⟩ <;> simp_all

/-- `times` and `trace` keep equal lengths across any successful step. -/
theorem step_times_trace_len (s : ScanState) (t : Token) (s' : ScanState)
    (h : step s t = .ok s') (hlen : s.times.length = s.trace.length) :
    s'.times.length = s'.trace.length :=
  (step_preserves s t s' h).1 hlen

/-- No successful `step` ever unsets the time cursor. -/
theorem step_t_start_preserved (s : ScanState) (t : Token) (s' : ScanState)
    (h : step s t = .ok s') (ht : s.t_start ≠ none) : s'.t_start ≠ none :=
  (step_preserves s t s' h).2 ht

/-- C3: a restore increments the role by exactly 1 when it is nonzero
and leaves role 0 unchanged; from role 1 two restores with no
intervening width declaration give role 3; and a recognized
`(stage, width)` declaration sets the role directly, regardless of its
prior value. -/
theorem c3_restore_advances_role :
    (∀ s s' : ScanState, step s (Token.op "Q") = .ok s' →
        s'.linestate = if s.linestate = 0 then 0 else s.linestate + 1)
  ∧ (∀ s s1 s2 : ScanState, s.linestate = 1 →
        step s (Token.op "Q") = .ok s1 → step s1 (Token.op "Q") = .ok s2 →
        s2.linestate = 3)
  ∧ (∀ (s : ScanState) (w : ℚ) (r : ℤ), s.params = [w] →
        roleTable s.stage w = some r →
        ∃ s', step s (Token.op "w") = .ok s' ∧ s'.linestate = r) := by
  refine ⟨step_Q_linestate, ?_, ?_⟩
  · intro s s1 s2 h1 hq1 hq2
    have e1 := step_Q_linestate s s1 hq1
    have e2 := step_Q_linestate s1 s2 hq2
    rw [h1] at e1
    norm_num at e1
    rw [e1] at e2
    norm_num at e2
    exact e2
  · intro s w r hp hr
    exact ⟨_, step_w s w hp, by simp [hr]⟩

/-- C3 witness: a `0.4 w` declaration at stage 2 assigns the border
role (1) to a state whose prior role is the initial 0. -/
theorem c3_restore_advances_role_witness :
    ∃ s', step { initState with stage := 2, params := [0.4] } (Token.op "w") = .ok s'
      ∧ s'.linestate = 1 :=
  c3_restore_advances_role.2.2 _ 0.4 1 rfl (by with_unfolding_all rfl)

/-- C4: once the role reaches 23, any number of further save and
restore operators with no intervening width declaration keeps the role
at or above 23 (saves leave it unchanged, restores only increment it),
and a move under such a role with the time cursor set appends exactly
one timestamp to `beats`. -/
theorem c4_beat_marker_role_sticky :
    (∀ ts : List Token, (∀ t ∈ ts, t = Token.op "q" ∨ t = Token.op "Q") →
        ∀ s s' : ScanState, List.foldlM step s ts = .ok s' →
        23 ≤ s.linestate → 23 ≤ s'.linestate)
  ∧ (∀ (s : ScanState) (px py c : ℚ), s.params = [px, py] →
        23 ≤ s.linestate → s.t_start = some c →
        step s (Token.op "m") = .ok { s with
          beats := s.beats ++ [(s.transform.map px py).1 - c]
          params := [] }) := by
  constructor
  · intro ts
    induction ts with
    | nil =>
      intro _ s s' h hs
      cases Except.ok.inj h
      exact hs
    | cons t ts ih =>
      intro hmem s s' h hs
      rw [List.foldlM_cons] at h
      rcases hmem t (List.mem_cons_self t ts) with rfl | rfl
      · rw [step_q, ok_bind] at h
        exact ih (fun u hu => hmem u (List.mem_cons_of_mem _ hu)) _ _ h
          (by simpa using hs)
      · cases hg : s.graphicstate with
        | nil => rw [step_Q_nil s hg, error_bind] at h; exact Except.noConfusion h
        | cons g rest =>
          rw [step_Q_cons s g rest hg, ok_bind] at h
          refine ih (fun u hu => hmem u (List.mem_cons_of_mem _ hu)) _ _ h ?_
          show 23 ≤ if s.linestate = 0 then s.linestate else s.linestate + 1
          rw [if_neg (by omega : ¬ s.linestate = 0)]
          omega
  · exact step_m_beat

/-- C4 witness: from role 23, a save/restore pair leaves the role at
24 ≥ 23, and a beat-role move with the cursor at 2 appends `7 - 2 = 5`. -/
theorem c4_beat_marker_role_sticky_witness :
    23 ≤ ({ initState with stage := 1, linestate := 24 } : ScanState).linestate
  ∧ step { initState with params := [7, 8], linestate := 23, t_start := some 2 }
        (Token.op "m")
      = .ok { initState with
              params := []
              linestate := 23
              t_start := some 2
              beats := [5] } := by
  constructor
  · exact c4_beat_marker_role_sticky.1 [Token.op "q", Token.op "Q"]
      (by intro t ht; simpa using ht)
      { initState with linestate := 23 } _ (by with_unfolding_all rfl)
      (by norm_num)
  · have h := c4_beat_marker_role_sticky.2
      { initState with params := [7, 8], linestate := 23, t_start := some 2 }
      7 8 2 rfl (by norm_num) rfl
    rw [h]
    with_unfolding_all rfl

/-- C5 (amended): a trace-role move or line processed while the Python
lookup `origins_trace[subtrace]` is out of range (subtrace at or beyond
the length, or below minus the length) makes the step fail — with the
index error, or with the none-arithmetic error for an unset cursor or
width that Python evaluates first — and produces no output.  (When
`subtrace` is negative but within range, e.g. `-1` with a non-empty
`origins_trace` after the calibration block closes, the code instead
silently reads the entry at `length + subtrace`; see the
counterexample.) -/
theorem c5_missing_origin_fails (s : ScanState) (px py : ℚ)
    (hp : s.params = [px, py]) (hls : s.linestate = 22)
    (hidx : pyIndex s.origins_trace s.subtrace = none) :
    (∃ e, step s (Token.op "m") = .error e)
    ∧ (∃ e, step s (Token.op "l") = .error e) := by
  obtain ⟨st, lv, it, pa, tr, gs, ls, xmn, xmx, tw, tst, sub, ot, ob, tms, trc, bts⟩ := s
  simp only at hp hls hidx
  subst hp hls
  constructor
  · cases tst with
    | none => exact ⟨ScanError.indexError, by simp [step, applyOp, hidx]⟩
    | some c =>
      cases tw with
      | none => exact ⟨ScanError.noneArithmetic, by simp [step, applyOp]⟩
      | some tw0 => exact ⟨ScanError.indexError, by simp [step, applyOp, hidx]⟩
  · cases tst with
    | none => exact ⟨ScanError.noneArithmetic, by simp [step, applyOp]⟩
    | some c => exact ⟨ScanError.indexError, by simp [step, applyOp, hidx]⟩

/-- C5 witness: with no origins recorded at all (`origins_trace = []`,
`subtrace = -1`) a trace-role move and line both fail. -/
theorem c5_missing_origin_fails_witness :
    (∃ e, step { initState with params := [3, 4], linestate := 22 }
        (Token.op "m") = .error e)
    ∧ (∃ e, step { initState with params := [3, 4], linestate := 22 }
        (Token.op "l") = .error e) :=
  c5_missing_origin_fails _ 3 4 rfl rfl (by with_unfolding_all rfl)

/-- C6: `times` and `trace` have equal length after every successful
step, and hence at the end of every scan that completes without error. -/
theorem c6_times_amplitudes_parallel :
    (∀ (s : ScanState) (t : Token) (s' : ScanState), step s t = .ok s' →
        s.times.length = s.trace.length → s'.times.length = s'.trace.length)
  ∧ (∀ (ts : List Token) (s' : ScanState), scanTokens ts = .ok s' →
        s'.times.length = s'.trace.length) := by
  refine ⟨step_times_trace_len, fun ts s' h => ?_⟩
  exact foldlM_step_invariant (fun s => s.times.length = s.trace.length)
    step_times_trace_len ts initState s' h rfl

/-- C6 witness: the invariant holds for the state reached by a scan of
a single save token. -/
theorem c6_times_amplitudes_parallel_witness :
    ({ initState with
        graphicstate := [GraphicsMap.dflt]
        stage := 1
        level := 1 } : ScanState).times.length
      = ({ initState with
            graphicstate := [GraphicsMap.dflt]
            stage := 1
            level := 1 } : ScanState).trace.length :=
  c6_times_amplitudes_parallel.2 [Token.op "q"] _ (by with_unfolding_all rfl)

/-- C7: the finalizer multiplies every element of `times` and `beats`
by `POINTS2MM / T_scale` and every element of `trace` by
`POINTS2MM / V_scale`, and does nothing else (lengths preserved,
elementwise scaling); with `T_scale = 25` the time factor is
`POINTS2MM / 25`. -/
theorem c7_finalizer_rescale (s : ScanState) (i : ℕ) :
    (finalize s).1.1.length = s.times.length
  ∧ (finalize s).1.2.length = s.trace.length
  ∧ (finalize s).2.length = s.beats.length
  ∧ ((finalize s).1.1)[i]? = Option.map (fun t => t * (POINTS2MM / T_scale)) s.times[i]?
  ∧ ((finalize s).1.2)[i]? = Option.map (fun v => v * (POINTS2MM / V_scale)) s.trace[i]?
  ∧ ((finalize s).2)[i]? = Option.map (fun t => t * (POINTS2MM / T_scale)) s.beats[i]?
  ∧ ((finalize s).1.1)[i]? = Option.map (fun t => t * (POINTS2MM / 25)) s.times[i]?
  ∧ ((finalize s).2)[i]? = Option.map (fun t => t * (POINTS2MM / 25)) s.beats[i]? := by
  have hT : T_scale = 25 := by norm_num [T_scale]
  refine ⟨?_, ?_, ?_, ?_, ?_, ?_, ?_, ?_⟩ <;>
    simp [finalize, hT, List.getElem?_map]

/-- C8: a restore processed while the graphics-state stack is empty
fails with the stack-underflow error and the whole scan aborts with no
output, whatever tokens follow. -/
theorem c8_unmatched_restore_aborts (ts1 ts2 : List Token) (s : ScanState)
    (h : List.foldlM step initState ts1 = .ok s) (hg : s.graphicstate = []) :
    ecgScan (ts1 ++ Token.op "Q" :: ts2) = .error ScanError.stackUnderflow :=
  scan_aborts ts1 ts2 _ s _ h (step_Q_nil s hg)

/-- C8 witness: a stream starting with a restore aborts immediately. -/
theorem c8_unmatched_restore_aborts_witness :
    ecgScan [Token.op "Q"] = .error ScanError.stackUnderflow :=
  c8_unmatched_restore_aborts [] [] initState rfl rfl

/-- C9: a concatenate-matrix operator with a nonzero 2nd or 3rd operand
fails with the unsupported-transform error and aborts the scan with no
output; with both off-diagonal operands zero it installs the transform
`(Sx, Sy, Tx, Ty) = (operand 1, operand 4, operand 5, operand 6)`. -/
theorem c9_concat_matrix_axis_aligned :
    (∀ (s : ScanState) (a b c d4 d5 d6 : ℚ), s.params = [a, b, c, d4, d5, d6] →
        (b ≠ 0 ∨ c ≠ 0) →
        step s (Token.op "cm") = .error ScanError.unsupportedTransform)
  ∧ (∀ (ts1 ts2 : List Token) (s : ScanState) (a b c d4 d5 d6 : ℚ),
        List.foldlM step initState ts1 = .ok s →
        s.params = [a, b, c, d4, d5, d6] → (b ≠ 0 ∨ c ≠ 0) →
        ecgScan (ts1 ++ Token.op "cm" :: ts2) = .error ScanError.unsupportedTransform)
  ∧ (∀ (s : ScanState) (a b c d4 d5 d6 : ℚ), s.params = [a, b, c, d4, d5, d6] →
        b = 0 → c = 0 →
        step s (Token.op "cm")
          = .ok { s with transform := ⟨a, d4, d5, d6⟩, params := [] }) :=
  ⟨step_cm_error,
   fun ts1 ts2 s a b c d4 d5 d6 h hp hbc =>
     scan_aborts ts1 ts2 _ s _ h (step_cm_error s a b c d4 d5 d6 hp hbc),
   step_cm_ok⟩

/-- C9 witness: the spec's example operands `[1, 0.1, 0, 0, 5, 5]` fail
at the step and abort a whole scan; zero off-diagonals install the
transform. -/
theorem c9_concat_matrix_axis_aligned_witness :
    step { initState with params := [1, 0.1, 0, 0, 5, 5] } (Token.op "cm")
      = .error ScanError.unsupportedTransform
  ∧ ecgScan [Token.num 1, Token.num 0.1, Token.num 0, Token.num 0, Token.num 5,
      Token.num 5, Token.op "cm"] = .error ScanError.unsupportedTransform
  ∧ step { initState with params := [2, 0, 0, 3, 4, 5] } (Token.op "cm")
      = .ok { initState with transform := ⟨2, 3, 4, 5⟩, params := [] } := by
  refine ⟨?_, ?_, ?_⟩
  · exact c9_concat_matrix_axis_aligned.1 _ 1 0.1 0 0 5 5 rfl
      (Or.inl (by norm_num))
  · exact c9_concat_matrix_axis_aligned.2.1
      [Token.num 1, Token.num 0.1, Token.num 0, Token.num 0, Token.num 5,
        Token.num 5] [] _ 1 0.1 0 0 5 5 (by with_unfolding_all rfl) rfl
      (Or.inl (by norm_num))
  · exact c9_concat_matrix_axis_aligned.2.2 _ 2 0 0 3 4 5 rfl rfl rfl

/-- C10: a move under a beat-marker role (≥ 23) with the time cursor
still unset fails rather than appending a timestamp; with the cursor
set it appends exactly one timestamp; the cursor, once set (by the
first trace-role move), is never unset by any step, so under the
precondition that a trace-role move preceded, the failure branch is
unreachable. -/
theorem c10_beat_marker_requires_cursor :
    (∀ (s : ScanState) (px py : ℚ), s.params = [px, py] → 23 ≤ s.linestate →
        s.t_start = none → step s (Token.op "m") = .error ScanError.noneArithmetic)
  ∧ (∀ (s : ScanState) (px py c : ℚ), s.params = [px, py] → 23 ≤ s.linestate →
        s.t_start = some c →
        step s (Token.op "m") = .ok { s with
          beats := s.beats ++ [(s.transform.map px py).1 - c], params := [] })
  ∧ (∀ (s : ScanState) (t : Token) (s' : ScanState), step s t = .ok s' →
        s.t_start ≠ none → s'.t_start ≠ none)
  ∧ (∀ (s : ScanState) (px py : ℚ) (s' : ScanState), s.params = [px, py] →
        s.linestate = 22 → s.t_start = none → step s (Token.op "m") = .ok s' →
        s'.t_start ≠ none) := by
  refine ⟨step_m_beat_nocursor, step_m_beat, step_t_start_preserved, ?_⟩
  intro s px py s' hp hls ht h
  obtain ⟨st, lv, it, pa, tr, gs, ls, xmn, xmx, tw, tst, sub, ot, ob, tms, trc, bts⟩ := s
  simp only at hp hls ht
  subst hp hls ht
  simp only [step, applyOp, String.reduceEq, reduceIte] at h
  cases hpy : pyIndex ot sub with
  | none => rw [hpy] at h; exact Except.noConfusion h
  | some o => rw [hpy] at h; cases Except.ok.inj h; simp

/-- C10 witness: a beat-role move with the cursor unset fails; with the
cursor at 3 it appends `7 - 3 = 4`; a numeric token preserves a set
cursor; a trace-role move with an available origin sets the cursor. -/
theorem c10_beat_marker_requires_cursor_witness :
    step { initState with params := [7, 8], linestate := 23 } (Token.op "m")
      = .error ScanError.noneArithmetic
  ∧ step { initState with params := [7, 8], linestate := 24, t_start := some 3 }
        (Token.op "m")
      = .ok { initState with
              params := []
              linestate := 24
              t_start := some 3
              beats := [4] }
  ∧ ({ initState with t_start := some 1, params := [2] } : ScanState).t_start ≠ none
  ∧ ({ initState with
        params := []
        linestate := 22
        origins_trace := [50]
        subtrace := 0
        t_start := some 3
        times := [0]
        trace := [-46] } : ScanState).t_start ≠ none := by
  refine ⟨?_, ?_, ?_, ?_⟩
  · exact c10_beat_marker_requires_cursor.1 _ 7 8 rfl (by norm_num) rfl
  · have h := c10_beat_marker_requires_cursor.2.1
      { initState with params := [7, 8], linestate := 24, t_start := some 3 }
      7 8 3 rfl (by norm_num) rfl
    rw [h]
    with_unfolding_all rfl
  · exact c10_beat_marker_requires_cursor.2.2.1
      { initState with t_start := some 1 } (Token.num 2) _
      (by with_unfolding_all rfl) (by simp)
  · exact c10_beat_marker_requires_cursor.2.2.2
      { initState with
        params := [3, 4]
        linestate := 22
        origins_trace := [50]
        subtrace := 0 } 3 4 _ rfl rfl rfl (by with_unfolding_all rfl)

end Ecg2Bsml
